import Mathlib

/-!
Verification development for the event-coordination core of `yretenai/bottom`
(`src/main.rs`).  The embedding mirrors `main.rs`; the sibling modules
(`app`, `canvas`, `convert_data`, `app::data_collection`) are not among the
sources, so their functions enter the model as abstract parameters bundled in
the `Ext` structure, and their types as type parameters.
-/

namespace Rustop

/-- `enum Event<I, J>` from `src/main.rs` lines 30–34 (`J` for mouse input,
the update payload is a boxed `data_collection::Data`, here the parameter `D`). -/
inductive Event (I J D : Type) where
  | KeyInput : I → Event I J D
  | MouseInput : J → Event I J D
  | Update : D → Event I J D
deriving DecidableEq

/-- The `crossterm::KeyEvent` constructors matched in `main.rs` lines 150–158;
`Other` stands for every remaining variant of the external enum (all of which
fall into the `_ => {}` arm). -/
inductive KeyEvent where
  | Ctrl : Char → KeyEvent
  | Esc : KeyEvent
  | Char : Char → KeyEvent
  | Left : KeyEvent
  | Right : KeyEvent
  | Up : KeyEvent
  | Down : KeyEvent
  | Other : KeyEvent
deriving DecidableEq

/-- The `crossterm::MouseButton` constructors matched in `main.rs` lines 170–177;
`OtherButton` stands for the remaining buttons (the `_ => {}` arm). -/
inductive MouseButton where
  | WheelUp : MouseButton
  | WheelDown : MouseButton
  | OtherButton : MouseButton
deriving DecidableEq

/-- The `crossterm::MouseEvent` constructors matched in `main.rs` lines 169–182;
coordinates are the two ignored `_x _y` payloads, `OtherMouse` the `_ =>` arm. -/
inductive MouseEvent where
  | Press : MouseButton → Nat → Nat → MouseEvent
  | Hold : Nat → Nat → MouseEvent
  | Release : Nat → Nat → MouseEvent
  | OtherMouse : MouseEvent
deriving DecidableEq

/-- The `crossterm::InputEvent` constructors matched by the input thread,
`main.rs` lines 101–114; `OtherInput` stands for every other raw event
(the `_ => {}` arm). -/
inductive InputEvent where
  | Keyboard : KeyEvent → InputEvent
  | Mouse : MouseEvent → InputEvent
  | OtherInput : InputEvent
deriving DecidableEq

/-- `data_collection::temperature::TemperatureType`, whose three constructors
appear in `main.rs` lines 71–79. -/
inductive TemperatureType where
  | Celsius : TemperatureType
  | Fahrenheit : TemperatureType
  | Kelvin : TemperatureType
deriving DecidableEq

/-- The slice of `data_collection::Data` used by `main.rs`: the process list
(`list_of_processes`, mutated by sorting) plus the remaining metric payload,
opaque here (`rest : R`). -/
structure Data (P R : Type) where
  list_of_processes : List P
  rest : R
deriving DecidableEq

/-- The fields of `app::App` that `main.rs` reads or writes (the `app` module
is not among the sources; its remaining fields never appear in `main.rs`).
`St` is the opaque process-sorting-type. -/
structure App (P R St : Type) where
  should_quit : Bool
  to_be_resorted : Bool
  data : Data P R
  process_sorting_type : St
  process_sorting_reverse : Bool
  temperature_type : TemperatureType
  show_average_cpu : Bool
deriving DecidableEq

/-- The value returned by `update_network_data_points` as destructured in
`main.rs` lines 190–194 (fields `rx`, `tx`, `rx_display`, `tx_display`). -/
structure ConvertedNetworkData (N S : Type) where
  rx : N
  tx : N
  rx_display : S
  tx_display : S
deriving DecidableEq

/-- `canvas::CanvasData`: exactly the fields assigned in `main.rs`
lines 162 and 190–200.  Each field's concrete type lives in the absent
`canvas` module, so each is a type parameter. -/
structure CanvasData (N S Dk Tm Pr Mm Cp : Type) where
  network_data_rx : N
  network_data_tx : N
  rx_display : S
  tx_display : S
  disk_data : Dk
  temp_sensor_data : Tm
  process_data : Pr
  mem_data : Mm
  swap_data : Mm
  cpu_data : Cp
deriving DecidableEq

/-- The external functions `main.rs` calls whose definitions live in modules
not among the sources (`data_collection::processes::sort_processes`,
the `convert_data` transformers, and the `app::App` input handlers).
They are abstract parameters of the whole development. -/
structure Ext (P R St N S Dk Tm Pr Mm Cp : Type) where
  sort_processes : List P → St → Bool → List P
  update_network_data_points : Data P R → ConvertedNetworkData N S
  update_disk_row : Data P R → Dk
  update_temp_row : Data P R → TemperatureType → Tm
  update_process_row : Data P R → Pr
  update_mem_data_points : Data P R → Mm
  update_swap_data_points : Data P R → Mm
  update_cpu_data_points : Bool → Data P R → Cp
  on_left : App P R St → App P R St
  on_right : App P R St → App P R St
  on_up : App P R St → App P R St
  on_down : App P R St → App P R St
  on_key : Char → App P R St → App P R St
  decrement_position_count : App P R St → App P R St
  increment_position_count : App P R St → App P R St

section Coordinator

variable {P R St N S Dk Tm Pr Mm Cp E : Type}

/-- `sort_processes(&mut app.data.list_of_processes, &app.process_sorting_type,
app.process_sorting_reverse)` — the in-place sort of the app's process list,
as called at `main.rs` lines 161 and 187. -/
def resortAppData (ext : Ext P R St N S Dk Tm Pr Mm Cp) (a : App P R St) :
    App P R St :=
  { a with
    data :=
      { a.data with
        list_of_processes :=
          ext.sort_processes a.data.list_of_processes a.process_sorting_type
            a.process_sorting_reverse } }

/-- The `KeyInput` dispatch `match` of `main.rs` lines 150–158, in the same
arm order.  `none` models `break` (the `Ctrl('c') | Esc` arm); every other
arm continues with the (possibly updated) app. -/
def key_input_dispatch (ext : Ext P R St N S Dk Tm Pr Mm Cp) (e : KeyEvent)
    (a : App P R St) : Option (App P R St) :=
  match e with
  | .Ctrl 'c' => none
  | .Esc => none
  | .Char 'h' => some (ext.on_left a)
  | .Left => some (ext.on_left a)
  | .Char 'l' => some (ext.on_right a)
  | .Right => some (ext.on_right a)
  | .Char 'k' => some (ext.on_up a)
  | .Up => some (ext.on_up a)
  | .Char 'j' => some (ext.on_down a)
  | .Down => some (ext.on_down a)
  | .Char c => some (ext.on_key c a)
  | _ => some a

/-- The `if app.to_be_resorted { ... }` block of `main.rs` lines 160–164:
re-sort the process list, rebuild only `canvas_data.process_data`, clear the
flag. -/
def key_resort_phase (ext : Ext P R St N S Dk Tm Pr Mm Cp) (a : App P R St)
    (c : CanvasData N S Dk Tm Pr Mm Cp) :
    App P R St × CanvasData N S Dk Tm Pr Mm Cp :=
  if a.to_be_resorted then
    let a1 := resortAppData ext a
    ({ a1 with to_be_resorted := false },
     { c with process_data := ext.update_process_row a1.data })
  else (a, c)

/-- The `MouseInput` arm of `main.rs` lines 167–183: wheel up/down move the
position count, everything else is a no-op. -/
def mouse_input_dispatch (ext : Ext P R St N S Dk Tm Pr Mm Cp)
    (e : MouseEvent) (a : App P R St) : App P R St :=
  match e with
  | .Press .WheelUp _ _ => ext.decrement_position_count a
  | .Press .WheelDown _ _ => ext.increment_position_count a
  | .Press .OtherButton _ _ => a
  | .Hold _ _ => a
  | .Release _ _ => a
  | .OtherMouse => a

/-- The `Update(data)` arm of `main.rs` lines 184–203: `app.data = *data`,
re-sort, then rebuild every `canvas_data` field from `app.data`.  The previous
canvas (`_c`) is in scope in the source but every field is overwritten. -/
def update_arm (ext : Ext P R St N S Dk Tm Pr Mm Cp) (a : App P R St)
    (_c : CanvasData N S Dk Tm Pr Mm Cp) (d : Data P R) :
    App P R St × CanvasData N S Dk Tm Pr Mm Cp :=
  let a1 := resortAppData ext { a with data := d }
  let network_data := ext.update_network_data_points a1.data
  (a1,
   { network_data_rx := network_data.rx
     network_data_tx := network_data.tx
     rx_display := network_data.rx_display
     tx_display := network_data.tx_display
     disk_data := ext.update_disk_row a1.data
     temp_sensor_data := ext.update_temp_row a1.data a1.temperature_type
     process_data := ext.update_process_row a1.data
     mem_data := ext.update_mem_data_points a1.data
     swap_data := ext.update_swap_data_points a1.data
     cpu_data := ext.update_cpu_data_points a1.show_average_cpu a1.data })

/-- Result of one `match recv` in the event loop: `brk` models `break` out of
the loop, `cont` models falling through to the `should_quit` check. -/
inductive Flow (A C : Type) where
  | brk : A → C → Flow A C
  | cont : A → C → Flow A C
deriving DecidableEq

/-- The whole `match recv { ... }` of `main.rs` lines 147–204. -/
def process_event (ext : Ext P R St N S Dk Tm Pr Mm Cp)
    (e : Event KeyEvent MouseEvent (Data P R)) (a : App P R St)
    (c : CanvasData N S Dk Tm Pr Mm Cp) :
    Flow (App P R St) (CanvasData N S Dk Tm Pr Mm Cp) :=
  match e with
  | .KeyInput k =>
    match key_input_dispatch ext k a with
    | none => .brk a c
    | some a1 =>
      let p := key_resort_phase ext a1 c
      .cont p.1 p.2
  | .MouseInput m => .cont (mouse_input_dispatch ext m a) c
  | .Update d =>
    let p := update_arm ext a c d
    .cont p.1 p.2

/-- Observable side effects of the coordinator outside drawing:
`input().disable_mouse_mode()` (`main.rs` lines 211 and 217) and
`error!(...)` logging (line 212). -/
inductive Effect where
  | disable_mouse_mode : Effect
  | log_error : Effect
deriving DecidableEq

/-- Outcome of running the event loop on a finite script:
`finished` = the loop was left by `break` and `main` went on to
`disable_mouse_mode` and `Ok(())`; `fatal` = `draw_data` returned `Err`, so
`main` disabled mouse mode, logged, and returned the error (`main.rs`
lines 210–214); `stillRunning` = the script is exhausted with the loop
still going. -/
inductive RunOut (E A C : Type) where
  | finished : List Effect → A → C → RunOut E A C
  | fatal : List Effect → E → RunOut E A C
  | stillRunning : A → C → RunOut E A C
deriving DecidableEq

/-- The `// Draw!` tail of each loop iteration (`main.rs` lines 209–214):
invoke `canvas::draw_data`; on error disable mouse mode, log, and return the
error; on success continue the loop via `cont`.  The first component of the
result lists every canvas passed to the renderer. -/
def render_phase (draw : App P R St → CanvasData N S Dk Tm Pr Mm Cp → Except E Unit)
    (cont : App P R St → CanvasData N S Dk Tm Pr Mm Cp →
      List (CanvasData N S Dk Tm Pr Mm Cp) ×
        RunOut E (App P R St) (CanvasData N S Dk Tm Pr Mm Cp))
    (a : App P R St) (c : CanvasData N S Dk Tm Pr Mm Cp) :
    List (CanvasData N S Dk Tm Pr Mm Cp) ×
      RunOut E (App P R St) (CanvasData N S Dk Tm Pr Mm Cp) :=
  match draw a c with
  | .error e => ([c], .fatal [Effect.disable_mouse_mode, Effect.log_error] e)
  | .ok _ =>
    let t := cont a c
    (c :: t.1, t.2)

/-- The event loop of `main.rs` lines 145–215 run over a finite script of
channel outcomes: `none` is a `recv_timeout` timeout (fall straight through
to the draw), `some e` a received event (the `match recv`, then the
`should_quit` check, then the draw).  Returns the list of canvases handed to
the renderer and the final outcome. -/
def coordinator_run (ext : Ext P R St N S Dk Tm Pr Mm Cp)
    (draw : App P R St → CanvasData N S Dk Tm Pr Mm Cp → Except E Unit) :
    List (Option (Event KeyEvent MouseEvent (Data P R))) → App P R St →
      CanvasData N S Dk Tm Pr Mm Cp →
      List (CanvasData N S Dk Tm Pr Mm Cp) ×
        RunOut E (App P R St) (CanvasData N S Dk Tm Pr Mm Cp)
  | [], a, c => ([], .stillRunning a c)
  | recv :: rest, a, c =>
    match recv with
    | none => render_phase draw (coordinator_run ext draw rest) a c
    | some e =>
      match process_event ext e a c with
      | .brk a1 c1 => ([], .finished [Effect.disable_mouse_mode] a1 c1)
      | .cont a1 c1 =>
        if a1.should_quit then ([], .finished [Effect.disable_mouse_mode] a1 c1)
        else render_phase draw (coordinator_run ext draw rest) a1 c1

/-- One consumed event as the loop sees it: the `match recv` followed by the
`if app.should_quit { break }` check.  The Boolean is `true` while the loop
keeps running. -/
def consume_step (ext : Ext P R St N S Dk Tm Pr Mm Cp)
    (e : Event KeyEvent MouseEvent (Data P R)) (a : App P R St)
    (c : CanvasData N S Dk Tm Pr Mm Cp) :
    App P R St × CanvasData N S Dk Tm Pr Mm Cp × Bool :=
  match process_event ext e a c with
  | .brk a1 c1 => (a1, c1, false)
  | .cont a1 c1 => (a1, c1, !a1.should_quit)

/-- Fold `consume_step` over a list of events in order; once the loop has
exited (flag `false`) further events are not consumed. -/
def consume_list (ext : Ext P R St N S Dk Tm Pr Mm Cp)
    (l : List (Event KeyEvent MouseEvent (Data P R)))
    (s : App P R St × CanvasData N S Dk Tm Pr Mm Cp × Bool) :
    App P R St × CanvasData N S Dk Tm Pr Mm Cp × Bool :=
  l.foldl (fun s e => if s.2.2 then consume_step ext e s.1 s.2.1 else s) s

end Coordinator

/-- A configuration of the coordinator seen from the channel: the events not
yet delivered (in arrival order), the application state and canvas, the trace
of events already processed (in processing order), and whether the loop is
still running. -/
structure CoCfg (Ev A C : Type) where
  pending : List Ev
  app : A
  canvas : C
  trace : List Ev
  running : Bool
deriving DecidableEq

/-- Small-step behaviour of the single-consumer event loop (`main.rs`
lines 145–215): at each iteration the `recv_timeout` either delivers the head
of the single channel's queue (`deliver`) or times out (`timeout`, which only
redraws and changes no state).  There is no step that consumes any event but
the head: the channel is the only event source and is FIFO. -/
inductive CoStep {P R St N S Dk Tm Pr Mm Cp : Type}
    (ext : Ext P R St N S Dk Tm Pr Mm Cp) :
    CoCfg (Event KeyEvent MouseEvent (Data P R)) (App P R St)
      (CanvasData N S Dk Tm Pr Mm Cp) →
    CoCfg (Event KeyEvent MouseEvent (Data P R)) (App P R St)
      (CanvasData N S Dk Tm Pr Mm Cp) → Prop
  | deliver (e : Event KeyEvent MouseEvent (Data P R))
      (rest : List (Event KeyEvent MouseEvent (Data P R))) (a : App P R St)
      (c : CanvasData N S Dk Tm Pr Mm Cp)
      (tr : List (Event KeyEvent MouseEvent (Data P R))) :
      CoStep ext ⟨e :: rest, a, c, tr, true⟩
        ⟨rest, (consume_step ext e a c).1, (consume_step ext e a c).2.1,
          tr ++ [e], (consume_step ext e a c).2.2⟩
  | timeout (evs : List (Event KeyEvent MouseEvent (Data P R)))
      (a : App P R St) (c : CanvasData N S Dk Tm Pr Mm Cp)
      (tr : List (Event KeyEvent MouseEvent (Data P R))) :
      CoStep ext ⟨evs, a, c, tr, true⟩ ⟨evs, a, c, tr, true⟩

section Producers

variable {P R D : Type}

/-- What a producer thread does after a `send` returns (channel still open, or
closed because the consumer was dropped). -/
inductive ProducerReaction where
  | keepRunning : ProducerReaction
  | exitedSilently : ProducerReaction
  | panicked : ProducerReaction
deriving DecidableEq

/-- The translation the input thread applies to each raw `crossterm` event
(`main.rs` lines 102–114): keyboard events become `KeyInput`, mouse events
`MouseInput`, everything else is silently dropped. -/
def translate_input (e : InputEvent) :
    Option (Event KeyEvent MouseEvent D) :=
  match e with
  | .Keyboard k => some (.KeyInput k)
  | .Mouse m => some (.MouseInput m)
  | .OtherInput => none

/-- The input thread's loop (`main.rs` lines 101–115) run over a finite list
of raw events, with a channel that accepts `cap` more messages before the
consumer side is closed.  On a failed send (`tx.send(..).is_err()`) the
thread `return`s, i.e. exits silently. -/
def run_input (cap : Nat) :
    List InputEvent → List (Event KeyEvent MouseEvent D) × ProducerReaction
  | [] => ([], .keepRunning)
  | r :: rest =>
    match translate_input (D := D) r with
    | none => run_input cap rest
    | some e =>
      match cap with
      | 0 => ([], .exitedSilently)
      | cap1 + 1 =>
        let t := run_input cap1 rest
        (e :: t.1, t.2)

/-- The sampler thread's send behaviour (`main.rs` lines 129–140) for `fuel`
iterations of its infinite loop, with a channel that accepts `cap` more
messages: each iteration sends one `Update` via `tx.send(..).unwrap()`, so
the first send after the channel closes panics.  Returns the number of
`Update`s delivered and the thread's final reaction. -/
def run_sampler (cap : Nat) : Nat → Nat × ProducerReaction
  | 0 => (0, .keepRunning)
  | fuel + 1 =>
    match cap with
    | 0 => (0, .panicked)
    | cap1 + 1 =>
      let t := run_sampler cap1 fuel
      (t.1 + 1, t.2)

/-- `true` exactly on `Update` events. -/
def is_update_event (e : Event KeyEvent MouseEvent D) : Bool :=
  match e with
  | .Update _ => true
  | _ => false

end Producers

/-- Emission instant (milliseconds since thread start) of the `n`-th `Update`
sent by the sampler thread (`main.rs` lines 129–140): each iteration blocks
on `update_data` (duration `acq n`), sends, then sleeps 250 ms after the
first iteration (`first_run`) and the configured `rate` after every later
one. -/
def sampler_emit_time (acq : Nat → Nat) (rate : Nat) : Nat → Nat
  | 0 => acq 0
  | n + 1 =>
    sampler_emit_time acq rate n + (if n = 0 then 250 else rate) + acq (n + 1)

/-- The refresh-rate validation of `main.rs` lines 58–69 on the parsed `u128`
value: below 250 or above `u64::MAX` is a descriptive `InvalidArg` error,
anything else is accepted. -/
def validate_rate (r : Nat) : Except String Nat :=
  if r < 250 then
    .error "Please set your update rate to be greater than 250 milliseconds."
  else if r > 2 ^ 64 - 1 then
    .error "Please set your update rate to be less than unsigned INT_MAX."
  else .ok r

/-- The successive phases of `main` (`src/main.rs`), in source order. -/
inductive StartupPhase where
  | parse_args : StartupPhase
  | rate_validation : StartupPhase
  | build_app : StartupPhase
  | setup_terminal : StartupPhase
  | spawn_input_thread : StartupPhase
  | init_data_state : StartupPhase
  | spawn_sampler_thread : StartupPhase
  | event_loop : StartupPhase
deriving DecidableEq

/-- The order in which `main` executes its phases (`main.rs`: argument
parsing lines 40–58, rate validation 60–69, app construction 83, terminal
setup 86–91, input thread spawn 94–117, data-state initialisation 120–123,
sampler thread spawn 124–142, event loop 145–215). -/
def main_phase_order : List StartupPhase :=
  [.parse_args, .rate_validation, .build_app, .setup_terminal,
   .spawn_input_thread, .init_data_state, .spawn_sampler_thread, .event_loop]

/-- Modelled from the spec: the key handler `app::App::on_key` (the `app`
module is not among the sources) — "Quit keys set the quit flag": pressing
'q' sets `should_quit`; no other plain character affects the quit flag. -/
def on_key_spec {P R St : Type} (c : Char) (a : App P R St) : App P R St :=
  if c = 'q' then { a with should_quit := true } else a

/-- A concrete instantiation of the external modules (every opaque type is
`Nat`) for evaluating the coordinator on concrete inputs.  `on_left` is a
sort-affecting key handler (it sets `to_be_resorted`), matching how a
sort-column key behaves. -/
def extW : Ext Nat Nat Nat Nat Nat Nat Nat Nat Nat Nat where
  sort_processes := fun l _ _ => l.reverse
  update_network_data_points := fun d => ⟨d.rest, d.rest, d.rest, d.rest⟩
  update_disk_row := fun d => d.rest
  update_temp_row := fun d _ => d.rest
  update_process_row := fun d => d.list_of_processes.length
  update_mem_data_points := fun d => d.rest
  update_swap_data_points := fun d => d.rest
  update_cpu_data_points := fun _ d => d.rest
  on_left := fun a => { a with to_be_resorted := true }
  on_right := fun a => a
  on_up := fun a => a
  on_down := fun a => a
  on_key := fun _ a => a
  decrement_position_count := fun a => a
  increment_position_count := fun a => a

/-- A concrete application state. -/
def appW : App Nat Nat Nat :=
  ⟨false, false, ⟨[3, 1, 2], 0⟩, 0, false, .Celsius, false⟩

/-- `appW` after a sort-affecting key handler ran (`to_be_resorted` set). -/
def appR : App Nat Nat Nat := { appW with to_be_resorted := true }

/-- A concrete canvas. -/
def cdW : CanvasData Nat Nat Nat Nat Nat Nat Nat := ⟨9, 9, 9, 9, 9, 9, 9, 9, 9, 9⟩

/-- A renderer that always succeeds. -/
def drawW : App Nat Nat Nat → CanvasData Nat Nat Nat Nat Nat Nat Nat →
    Except Nat Unit := fun _ _ => .ok ()

/-- A renderer that always fails with error code `k`. -/
def draw_err (k : Nat) : App Nat Nat Nat →
    CanvasData Nat Nat Nat Nat Nat Nat Nat → Except Nat Unit :=
  fun _ _ => .error k

/-- A concrete delivered event (a no-op mouse hold). -/
def evW : Event KeyEvent MouseEvent (Data Nat Nat) := .MouseInput (.Hold 0 0)

/-- Coordinator configuration with `evW` pending and nothing processed. -/
def cfg0W : CoCfg (Event KeyEvent MouseEvent (Data Nat Nat)) (App Nat Nat Nat)
    (CanvasData Nat Nat Nat Nat Nat Nat Nat) := ⟨[evW], appW, cdW, [], true⟩

/-- Coordinator configuration after `evW` has been delivered. -/
def cfg1W : CoCfg (Event KeyEvent MouseEvent (Data Nat Nat)) (App Nat Nat Nat)
    (CanvasData Nat Nat Nat Nat Nat Nat Nat) := ⟨[], appW, cdW, [evW], true⟩

section Theorems

variable {P R St N S Dk Tm Pr Mm Cp E : Type}

/-- Any multi-step execution of the coordinator consumes exactly a prefix of
the pending queue, appends it to the trace in queue order, and reaches the
state obtained by folding `consume_step` over that prefix in order. -/
theorem coordinator_trace_spec (ext : Ext P R St N S Dk Tm Pr Mm Cp)
    (cfg cfg' : CoCfg (Event KeyEvent MouseEvent (Data P R)) (App P R St)
      (CanvasData N S Dk Tm Pr Mm Cp))
    (h : Relation.ReflTransGen (CoStep ext) cfg cfg') :
    ∃ done, cfg'.trace = cfg.trace ++ done ∧
      cfg.pending = done ++ cfg'.pending ∧
      (cfg'.app, cfg'.canvas, cfg'.running) =
        consume_list ext done (cfg.app, cfg.canvas, cfg.running) := by
  induction h with
  | refl => exact ⟨[], by simp [consume_list]⟩
  | tail _hs hstep ih =>
    obtain ⟨done, htr, hp, hst⟩ := ih
    cases hstep with
    | deliver e rest a c tr =>
      refine ⟨done ++ [e], ?_, ?_, ?_⟩
      · simp only [CoCfg.trace] at htr ⊢
        rw [htr, List.append_assoc]
      · simp only [CoCfg.pending] at hp ⊢
        rw [hp]
        simp
      · simp only [CoCfg.app, CoCfg.canvas, CoCfg.running] at hst ⊢
        have hsplit : consume_list ext (done ++ [e])
            (cfg.app, cfg.canvas, cfg.running) =
            consume_list ext [e]
              (consume_list ext done (cfg.app, cfg.canvas, cfg.running)) := by
          simp [consume_list, List.foldl_append]
        rw [hsplit, ← hst]
        simp [consume_list]
    | timeout evs a c tr => exact ⟨done, htr, hp, hst⟩

/--
C1: for every finite scripted sequence of interleaved `KeyInput`,
`MouseInput` and `Update` events delivered through the single shared
channel, the event coordinator applies the corresponding state transitions
strictly in the arrival order of the events, with no reordering or
prioritization between input events and data events: in any execution of
`CoStep`, the processed trace extends by a prefix of the pending queue in
queue order, and the resulting application state and canvas are exactly the
in-order fold of the per-event transition over that prefix.
-/
theorem c1_events_processed_in_arrival_order
    (ext : Ext P R St N S Dk Tm Pr Mm Cp)
    (evs tr : List (Event KeyEvent MouseEvent (Data P R))) (a : App P R St)
    (c : CanvasData N S Dk Tm Pr Mm Cp)
    (cfg' : CoCfg (Event KeyEvent MouseEvent (Data P R)) (App P R St)
      (CanvasData N S Dk Tm Pr Mm Cp))
    (h : Relation.ReflTransGen (CoStep ext) ⟨evs, a, c, tr, true⟩ cfg') :
    ∃ done, cfg'.trace = tr ++ done ∧
      evs = done ++ cfg'.pending ∧
      (cfg'.app, cfg'.canvas, cfg'.running) =
        consume_list ext done (a, c, true) :=
  coordinator_trace_spec ext ⟨evs, a, c, tr, true⟩ cfg' h

/-- Concrete run for C1: delivering the single pending event moves it onto
the trace and the state is the fold over `[evW]`. -/
theorem c1_events_processed_in_arrival_order_witness :
    Relation.ReflTransGen (CoStep extW) cfg0W cfg1W ∧
    ∃ done, cfg1W.trace = [] ++ done ∧
      [evW] = done ++ cfg1W.pending ∧
      (cfg1W.app, cfg1W.canvas, cfg1W.running) =
        consume_list extW done (appW, cdW, true) := by
  have hstep : CoStep extW cfg0W cfg1W := CoStep.deliver evW [] appW cdW []
  exact ⟨Relation.ReflTransGen.single hstep,
    c1_events_processed_in_arrival_order extW [evW] [] appW cdW cfg1W
      (Relation.ReflTransGen.single hstep)⟩

/--
C4: on every `Update(snapshot)` event the coordinator replaces its
application data wholesale with the new snapshot, re-runs the process sorter
with the current sort state, and rebuilds every canvas field (network rx/tx
series and display strings, disk, temperature, process, memory, swap, CPU)
from that single snapshot: the result of the `Update` arm is independent of
the previous canvas, the new application data is exactly the sorted new
snapshot, and each canvas field is the corresponding transformer applied to
that one post-sort snapshot.
-/
theorem c4_update_rebuilds_all_buffers_from_one_snapshot
    (ext : Ext P R St N S Dk Tm Pr Mm Cp) (a : App P R St)
    (c c' : CanvasData N S Dk Tm Pr Mm Cp) (d : Data P R) :
    update_arm ext a c d = update_arm ext a c' d ∧
    (update_arm ext a c d).1 = resortAppData ext { a with data := d } ∧
    (update_arm ext a c d).2.network_data_rx =
      (ext.update_network_data_points
        (resortAppData ext { a with data := d }).data).rx ∧
    (update_arm ext a c d).2.network_data_tx =
      (ext.update_network_data_points
        (resortAppData ext { a with data := d }).data).tx ∧
    (update_arm ext a c d).2.rx_display =
      (ext.update_network_data_points
        (resortAppData ext { a with data := d }).data).rx_display ∧
    (update_arm ext a c d).2.tx_display =
      (ext.update_network_data_points
        (resortAppData ext { a with data := d }).data).tx_display ∧
    (update_arm ext a c d).2.disk_data =
      ext.update_disk_row (resortAppData ext { a with data := d }).data ∧
    (update_arm ext a c d).2.temp_sensor_data =
      ext.update_temp_row (resortAppData ext { a with data := d }).data
        a.temperature_type ∧
    (update_arm ext a c d).2.process_data =
      ext.update_process_row (resortAppData ext { a with data := d }).data ∧
    (update_arm ext a c d).2.mem_data =
      ext.update_mem_data_points (resortAppData ext { a with data := d }).data ∧
    (update_arm ext a c d).2.swap_data =
      ext.update_swap_data_points (resortAppData ext { a with data := d }).data ∧
    (update_arm ext a c d).2.cpu_data =
      ext.update_cpu_data_points a.show_average_cpu
        (resortAppData ext { a with data := d }).data :=
  ⟨rfl, rfl, rfl, rfl, rfl, rfl, rfl, rfl, rfl, rfl, rfl, rfl⟩

/--
C5: when a `KeyInput` event marks the sort state as changed
(`to_be_resorted`), the coordinator immediately — inside the `KeyInput` arm
of the same iteration, before the next render and without waiting for the
next `Update` — re-sorts the process list and rebuilds only the
process-table canvas field; every other canvas field is left unchanged, and
the flag is cleared.
-/
theorem c5_sort_key_rebuilds_only_process_table
    (ext : Ext P R St N S Dk Tm Pr Mm Cp) (k : KeyEvent) (a a1 : App P R St)
    (c : CanvasData N S Dk Tm Pr Mm Cp)
    (hd : key_input_dispatch ext k a = some a1)
    (hr : a1.to_be_resorted = true) :
    process_event ext (.KeyInput k) a c =
      .cont { resortAppData ext a1 with to_be_resorted := false }
        { c with
          process_data := ext.update_process_row (resortAppData ext a1).data } := by
  simp [process_event, hd, key_resort_phase, hr]

/-- Concrete run for C5: a sort-affecting key (here `Left`, whose handler set
`to_be_resorted`) re-sorts and patches only `process_data`. -/
theorem c5_sort_key_rebuilds_only_process_table_witness :
    key_input_dispatch extW KeyEvent.Left appW = some appR ∧
    appR.to_be_resorted = true ∧
    process_event extW (.KeyInput .Left) appW cdW =
      .cont { resortAppData extW appR with to_be_resorted := false }
        { cdW with
          process_data := extW.update_process_row (resortAppData extW appR).data } :=
  ⟨rfl, rfl,
    c5_sort_key_rebuilds_only_process_table extW KeyEvent.Left appW appR cdW
      rfl rfl⟩

/--
C6: when the channel receive times out (no event arrived within one tick),
the coordinator proceeds directly to invoking the renderer with the last
computed canvas: the canvas handed to the renderer is the previous one, and
the loop continues with application state and every canvas field unchanged
from the previous iteration.
-/
theorem c6_timeout_redraws_last_buffers
    (ext : Ext P R St N S Dk Tm Pr Mm Cp)
    (draw : App P R St → CanvasData N S Dk Tm Pr Mm Cp → Except E Unit)
    (rest : List (Option (Event KeyEvent MouseEvent (Data P R))))
    (a : App P R St) (c : CanvasData N S Dk Tm Pr Mm Cp)
    (h : draw a c = Except.ok ()) :
    coordinator_run ext draw (none :: rest) a c =
      (c :: (coordinator_run ext draw rest a c).1,
        (coordinator_run ext draw rest a c).2) := by
  simp [coordinator_run, render_phase, h]

/-- Concrete run for C6: a timeout iteration renders the previous canvas and
changes nothing. -/
theorem c6_timeout_redraws_last_buffers_witness :
    drawW appW cdW = Except.ok () ∧
    coordinator_run extW drawW [none] appW cdW =
      (cdW :: (coordinator_run extW drawW [] appW cdW).1,
        (coordinator_run extW drawW [] appW cdW).2) :=
  ⟨rfl, c6_timeout_redraws_last_buffers extW drawW [] appW cdW rfl⟩

/-- The resort block of the `KeyInput` arm never touches the quit flag. -/
theorem key_resort_phase_preserves_should_quit
    (ext : Ext P R St N S Dk Tm Pr Mm Cp) (a : App P R St)
    (c : CanvasData N S Dk Tm Pr Mm Cp) :
    (key_resort_phase ext a c).1.should_quit = a.should_quit := by
  unfold key_resort_phase
  split <;> rfl

/-- C7 counterexample: delivering `KeyInput(Ctrl+C)` makes the coordinator
exit immediately via `break` in the dispatch `match`, with the quit flag
still `false` in the final state — so the quit keys Ctrl+C/Esc do not set
the quit flag and the exit does not go through the after-steps-3–5 flag
check, contrary to the claim's stated mechanism. -/
theorem c7_quit_counterexample :
    coordinator_run extW drawW [some (Event.KeyInput (KeyEvent.Ctrl 'c'))]
      appW cdW = ([], RunOut.finished [Effect.disable_mouse_mode] appW cdW) ∧
    appW.should_quit = false := by
  constructor
  · rfl
  · rfl

/--
C7 (amended): sending `KeyInput('q')` or a quit key (Ctrl+C, Esc) at any
point causes the coordinator to exit its loop within the iteration that
receives it (hence within one tick duration) with no further renders
invoked.  Ctrl+C and Esc exit by breaking out of the loop immediately during
key dispatch, without going through the quit flag; 'q' reaches the key
handler, which sets the quit flag (handler modelled from the spec, the `app`
module being absent from the sources), and the coordinator's check after
steps 3–5 then exits rather than invoking the renderer.
-/
theorem c7_amended_quit_exits_without_render
    (ext : Ext P R St N S Dk Tm Pr Mm Cp)
    (draw : App P R St → CanvasData N S Dk Tm Pr Mm Cp → Except E Unit)
    (rest : List (Option (Event KeyEvent MouseEvent (Data P R))))
    (a : App P R St) (c : CanvasData N S Dk Tm Pr Mm Cp) :
    coordinator_run ext draw (some (.KeyInput (.Ctrl 'c')) :: rest) a c =
      ([], .finished [Effect.disable_mouse_mode] a c) ∧
    coordinator_run ext draw (some (.KeyInput .Esc) :: rest) a c =
      ([], .finished [Effect.disable_mouse_mode] a c) ∧
    (∃ a1 c1,
      coordinator_run { ext with on_key := on_key_spec } draw
          (some (.KeyInput (.Char 'q')) :: rest) a c =
        ([], .finished [Effect.disable_mouse_mode] a1 c1) ∧
      a1.should_quit = true) := by
  refine ⟨by simp [coordinator_run, process_event, key_input_dispatch],
    by simp [coordinator_run, process_event, key_input_dispatch], ?_⟩
  have hd : key_input_dispatch { ext with on_key := on_key_spec }
      (.Char 'q') a = some (on_key_spec 'q' a) := rfl
  have hq : (on_key_spec 'q' a).should_quit = true := rfl
  refine ⟨(key_resort_phase { ext with on_key := on_key_spec }
      (on_key_spec 'q' a) c).1,
    (key_resort_phase { ext with on_key := on_key_spec }
      (on_key_spec 'q' a) c).2, ?_, ?_⟩
  · have hsq : (key_resort_phase { ext with on_key := on_key_spec }
        (on_key_spec 'q' a) c).1.should_quit = true := by
      rw [key_resort_phase_preserves_should_quit, hq]
    simp [coordinator_run, process_event, hd, hsq]
  · rw [key_resort_phase_preserves_should_quit, hq]

/--
C9: when the renderer invocation returns an error, the coordinator treats it
as fatal: it disables the mouse-mode raw-terminal side effect, logs the
error, and terminates with that error as its outcome instead of continuing
the loop — no further iterations of the script are processed.
-/
theorem c9_render_error_is_fatal
    (ext : Ext P R St N S Dk Tm Pr Mm Cp)
    (draw : App P R St → CanvasData N S Dk Tm Pr Mm Cp → Except E Unit)
    (cont : App P R St → CanvasData N S Dk Tm Pr Mm Cp →
      List (CanvasData N S Dk Tm Pr Mm Cp) ×
        RunOut E (App P R St) (CanvasData N S Dk Tm Pr Mm Cp))
    (rest : List (Option (Event KeyEvent MouseEvent (Data P R))))
    (a : App P R St) (c : CanvasData N S Dk Tm Pr Mm Cp) (e : E)
    (h : draw a c = Except.error e) :
    render_phase draw cont a c =
      ([c], .fatal [Effect.disable_mouse_mode, Effect.log_error] e) ∧
    coordinator_run ext draw (none :: rest) a c =
      ([c], .fatal [Effect.disable_mouse_mode, Effect.log_error] e) := by
  constructor <;> simp [coordinator_run, render_phase, h]

/-- Concrete run for C9: a failing renderer aborts the loop with the mouse
mode disabled and the error logged and returned. -/
theorem c9_render_error_is_fatal_witness :
    draw_err 7 appW cdW = Except.error 7 ∧
    render_phase (draw_err 7) (coordinator_run extW (draw_err 7) []) appW cdW =
      ([cdW], .fatal [Effect.disable_mouse_mode, Effect.log_error] 7) ∧
    coordinator_run extW (draw_err 7) [none, none] appW cdW =
      ([cdW], .fatal [Effect.disable_mouse_mode, Effect.log_error] 7) :=
  ⟨rfl,
    (c9_render_error_is_fatal extW (draw_err 7)
      (coordinator_run extW (draw_err 7) []) [none] appW cdW 7 rfl).1,
    (c9_render_error_is_fatal extW (draw_err 7)
      (coordinator_run extW (draw_err 7) []) [none] appW cdW 7 rfl).2⟩

/-- C2 counterexample: with the configured interval at 1000 ms and
instantaneous acquisitions, the second `Update` is emitted 250 ms after the
first — the sampler sleeps only the 250 ms warm-up delay after its first
send — so the second `Update` arrives earlier than ~1000 ms after the first,
contrary to the claim. -/
theorem c2_sampler_timing_counterexample :
    sampler_emit_time (fun _ => 0) 1000 1 -
      sampler_emit_time (fun _ => 0) 1000 0 = 250 ∧
    ¬ (1000 ≤ sampler_emit_time (fun _ => 0) 1000 1 -
      sampler_emit_time (fun _ => 0) 1000 0) := by
  constructor
  · rfl
  · decide

/--
C2 (amended): the sampler emits its first `Update` immediately after the
first acquisition (within ~250 ms of startup when the acquisition takes at
most 250 ms), emits the second `Update` 250 ms (the warm-up delay) plus one
acquisition after the first — not a full configured interval — and from the
second emission onward it sleeps the full configured interval between
successive `Update` emissions (Steady state).
-/
theorem c2_amended_sampler_timing (acq : Nat → Nat) (rate : Nat) (n : Nat)
    (h0 : acq 0 ≤ 250) (hn : 1 ≤ n) :
    sampler_emit_time acq rate 0 ≤ 250 ∧
    sampler_emit_time acq rate 1 =
      sampler_emit_time acq rate 0 + 250 + acq 1 ∧
    sampler_emit_time acq rate (n + 1) =
      sampler_emit_time acq rate n + rate + acq (n + 1) := by
  refine ⟨h0, rfl, ?_⟩
  match n, hn with
  | m + 1, _ => simp [sampler_emit_time]

/-- Concrete evaluation for C2 (amended): instantaneous acquisitions,
interval 1000 ms: emissions at 0 ms, 250 ms, and then every 1000 ms. -/
theorem c2_amended_sampler_timing_witness :
    (fun _ : Nat => 0) 0 ≤ 250 ∧ 1 ≤ 1 ∧
    (sampler_emit_time (fun _ => 0) 1000 0 ≤ 250 ∧
      sampler_emit_time (fun _ => 0) 1000 1 =
        sampler_emit_time (fun _ => 0) 1000 0 + 250 + (fun _ : Nat => 0) 1 ∧
      sampler_emit_time (fun _ => 0) 1000 2 =
        sampler_emit_time (fun _ => 0) 1000 1 + 1000 + (fun _ : Nat => 0) 2) :=
  ⟨by decide, by decide,
    c2_amended_sampler_timing (fun _ => 0) 1000 1 (by decide) (by decide)⟩

/-- C3 counterexample: the sampler thread sends with
`tx.send(..).unwrap()`, so when the consumer side of the channel has been
closed (capacity 0) its very next iteration panics instead of exiting its
loop silently, contrary to the claim that both producers exit silently. -/
theorem c3_producer_shutdown_counterexample :
    (run_sampler 0 1).2 = ProducerReaction.panicked ∧
    (run_sampler 0 1).2 ≠ ProducerReaction.exitedSilently := by
  constructor
  · rfl
  · decide

/-- When the channel closes before the raw input is exhausted, the input
thread returns silently after delivering exactly the events the channel
accepted. -/
theorem run_input_exits_silently_when_closed {D : Type} :
    ∀ (raws : List InputEvent) (cap : Nat),
      cap < (raws.filterMap (translate_input (D := D))).length →
      (run_input (D := D) cap raws).2 = ProducerReaction.exitedSilently := by
  intro raws
  induction raws with
  | nil => intro cap h; simp [List.filterMap] at h
  | cons r rest ih =>
    intro cap h
    cases htr : translate_input (D := D) r with
    | none =>
      rw [List.filterMap_cons, htr] at h
      simpa [run_input, htr] using ih cap h
    | some e =>
      rw [List.filterMap_cons, htr] at h
      cases cap with
      | zero => simp [run_input, htr]
      | succ cap1 =>
        have h1 : cap1 < (rest.filterMap (translate_input (D := D))).length := by
          simpa using Nat.lt_of_succ_lt_succ h
        simpa [run_input, htr] using ih cap1 h1

/-- The sampler thread panics as soon as the channel closes: with capacity
`cap` and more iterations than `cap`, it delivers exactly `cap` updates and
then panics on the failed `unwrap`. -/
theorem run_sampler_panics_when_closed :
    ∀ (cap fuel : Nat), cap < fuel →
      run_sampler cap fuel = (cap, ProducerReaction.panicked) := by
  intro cap
  induction cap with
  | zero =>
    intro fuel h
    match fuel, h with
    | f + 1, _ => rfl
  | succ cap1 ih =>
    intro fuel h
    match fuel, h with
    | f + 1, h =>
      have h1 : cap1 < f := Nat.lt_of_succ_lt_succ h
      simp [run_sampler, ih f h1]

/--
C3 (amended): when a send on the shared channel fails because the consumer
side has been closed, the Input Source stops emitting and exits its loop
silently (the normal shutdown path), but the Sampler Source, which sends
with `unwrap()`, panics on its next send instead of exiting silently.
-/
theorem c3_amended_producer_shutdown {D : Type} (raws : List InputEvent)
    (cap fuel : Nat)
    (hin : cap < (raws.filterMap (translate_input (D := D))).length)
    (hs : cap < fuel) :
    (run_input (D := D) cap raws).2 = ProducerReaction.exitedSilently ∧
    run_sampler cap fuel = (cap, ProducerReaction.panicked) :=
  ⟨run_input_exits_silently_when_closed raws cap hin,
    run_sampler_panics_when_closed cap fuel hs⟩

/-- Concrete evaluation for C3 (amended): channel closed before one keyboard
event and one sampler iteration. -/
theorem c3_amended_producer_shutdown_witness :
    0 < ([InputEvent.Keyboard KeyEvent.Esc].filterMap
      (translate_input (D := Data Nat Nat))).length ∧ 0 < 1 ∧
    ((run_input (D := Data Nat Nat) 0 [InputEvent.Keyboard KeyEvent.Esc]).2 =
        ProducerReaction.exitedSilently ∧
      run_sampler 0 1 = (0, ProducerReaction.panicked)) :=
  ⟨by decide, by decide,
    c3_amended_producer_shutdown [InputEvent.Keyboard KeyEvent.Esc] 0 1
      (by decide) (by decide)⟩

/--
C8: startup fails with a descriptive configuration error if and only if the
parsed refresh interval is below 250 ms or above `u64::MAX`; any interval of
at least 250 ms within that range is accepted.  The rate validation phase of
`main` precedes both thread spawns.
-/
theorem c8_rate_validation_bounds (r : Nat) (h : r < 2 ^ 128) :
    (validate_rate r = Except.ok r ↔ 250 ≤ r ∧ r ≤ 2 ^ 64 - 1) ∧
    List.indexOf StartupPhase.rate_validation main_phase_order <
      List.indexOf StartupPhase.spawn_input_thread main_phase_order ∧
    List.indexOf StartupPhase.rate_validation main_phase_order <
      List.indexOf StartupPhase.spawn_sampler_thread main_phase_order := by
  have hpow : (2 : Nat) ^ 64 - 1 = 18446744073709551615 := by norm_num
  refine ⟨⟨?_, ?_⟩, by decide, by decide⟩
  · intro hok
    unfold validate_rate at hok
    by_cases h1 : r < 250
    · rw [if_pos h1] at hok
      exact Except.noConfusion hok
    · rw [if_neg h1] at hok
      by_cases h2 : r > 2 ^ 64 - 1
      · rw [if_pos h2] at hok
        exact Except.noConfusion hok
      · rw [hpow] at h2 ⊢
        omega
  · intro hle
    rw [hpow] at hle
    have h1 : ¬ r < 250 := by omega
    have h2 : ¬ r > 2 ^ 64 - 1 := by
      rw [hpow]
      omega
    unfold validate_rate
    rw [if_neg h1, if_neg h2]

/-- Concrete evaluation for C8: the default 1000 ms rate is accepted. -/
theorem c8_rate_validation_bounds_witness :
    1000 < 2 ^ 128 ∧
    ((validate_rate 1000 = Except.ok 1000 ↔
        250 ≤ 1000 ∧ 1000 ≤ 2 ^ 64 - 1) ∧
      List.indexOf StartupPhase.rate_validation main_phase_order <
        List.indexOf StartupPhase.spawn_input_thread main_phase_order ∧
      List.indexOf StartupPhase.rate_validation main_phase_order <
        List.indexOf StartupPhase.spawn_sampler_thread main_phase_order) :=
  ⟨by norm_num, c8_rate_validation_bounds 1000 (by norm_num)⟩

/-- With enough channel capacity the input thread forwards exactly the
translation of its raw input stream, in order, and keeps running. -/
theorem run_input_emits_filterMap {D : Type} :
    ∀ (raws : List InputEvent) (cap : Nat),
      (raws.filterMap (translate_input (D := D))).length ≤ cap →
      run_input (D := D) cap raws =
        (raws.filterMap (translate_input (D := D)),
          ProducerReaction.keepRunning) := by
  intro raws
  induction raws with
  | nil => intro cap _; rfl
  | cons r rest ih =>
    intro cap h
    cases htr : translate_input (D := D) r with
    | none =>
      rw [List.filterMap_cons, htr] at h ⊢
      simpa [run_input, htr] using ih cap h
    | some e =>
      rw [List.filterMap_cons, htr] at h ⊢
      cases cap with
      | zero => simp at h
      | succ cap1 =>
        have h1 : (rest.filterMap (translate_input (D := D))).length ≤ cap1 :=
          Nat.le_of_succ_le_succ h
        simp [run_input, htr, ih cap1 h1]

/--
C10: the input thread emits exactly one `KeyInput` event per keyboard
signal and one `MouseInput` event per mouse signal, in the order received,
silently discards every raw event that is neither, and never emits an
`Update` event: with a channel that accepts its output, its emissions are
exactly `filterMap translate_input` over the raw stream, and no emission is
an `Update`.
-/
theorem c10_input_thread_emissions {D : Type} (raws : List InputEvent)
    (k : KeyEvent) (m : MouseEvent) :
    translate_input (D := D) (.Keyboard k) = some (.KeyInput k) ∧
    translate_input (D := D) (.Mouse m) = some (.MouseInput m) ∧
    translate_input (D := D) .OtherInput = none ∧
    run_input (D := D) (raws.filterMap (translate_input (D := D))).length
        raws =
      (raws.filterMap (translate_input (D := D)),
        ProducerReaction.keepRunning) ∧
    (raws.filterMap (translate_input (D := D))).all
      (fun e => !is_update_event e) = true := by
  refine ⟨rfl, rfl, rfl, run_input_emits_filterMap raws _ (Nat.le_refl _), ?_⟩
  rw [List.all_eq_true]
  intro e he
  obtain ⟨r, _, htr⟩ := List.mem_filterMap.mp he
  cases r with
  | Keyboard k0 => cases htr; rfl
  | Mouse m0 => cases htr; rfl
  | OtherInput => cases htr

end Theorems

end Rustop
